import Mathlib

/-!
Shallow embedding of the perxplor treasure-hunt engine: the grid/viewport
math, the terrain color generators, the treasure lifecycle transitions of
App.tsx, the canvas click handlers of GameCanvas.tsx, and the persistence
layer of UserService.ts.  Theorems at the end of the file settle the frozen
claims about this code.
-/

namespace Perxplor

/-- GRID_SIZE constant of App.tsx and GameCanvas.tsx. -/
def GRID_SIZE : Int := 500

/-- BASE_TILE_SIZE constant of GameCanvas.tsx. -/
def BASE_TILE_SIZE : Int := 24

/-- ZOOM_LEVELS constant of App.tsx. -/
def ZOOM_LEVELS : List Int := [100, 50, 20, 10, 2]

/-- Treasure record of GameCanvas.tsx (second, full variant of the
interface: optional id, name, description, rarity, biome). -/
structure Treasure where
  x : Int
  y : Int
  emoji : String
  id : Option String := none
  name : Option String := none
  description : Option String := none
  rarity : Option String := none
  biome : Option String := none
deriving DecidableEq

/-- Player record of GameCanvas.tsx. -/
structure Player where
  x : Int
  y : Int
  address : String
deriving DecidableEq

/-- User record of UserService.ts.  Optional string fields model the
optional TypeScript fields (undefined = none). -/
structure User where
  id : String
  walletAddress : Option String
  email : Option String
  walletType : Option String
  treasures : List Treasure
  score : Int
  lastLogin : String
deriving DecidableEq

/-- Position key used throughout the code, the template string
of the form x-y built from a treasure position. -/
def treasureKey (x y : Int) : String := toString x ++ "-" ++ toString y

/-- Updating a JS object used as a set of keys: adding a key that is
already present leaves the object unchanged. -/
def insertKey (opened : List String) (key : String) : List String :=
  if key ∈ opened then opened else opened ++ [key]

/-- calculateTreasureValue of App.tsx: the rarity to value map with
fallback 10 for a rarity not in the map. -/
def calculateTreasureValue (rarity : String) : Int :=
  if rarity = "Common" then 10
  else if rarity = "Uncommon" then 50
  else if rarity = "Rare" then 200
  else if rarity = "Epic" then 500
  else if rarity = "Legendary" then 1000
  else 10

/-- The valueMap lookup inlined in addTreasureToUser of UserService.ts,
with the same table and the same fallback. -/
def userServiceTreasureValue (rarity : String) : Int :=
  if rarity = "Common" then 10
  else if rarity = "Uncommon" then 50
  else if rarity = "Rare" then 200
  else if rarity = "Epic" then 500
  else if rarity = "Legendary" then 1000
  else 10

/-- getUserById of UserService.ts: first stored user whose id, wallet
address or email equals the query, null when none matches. -/
def getUserById (users : List User) (idq : String) : Option User :=
  users.find? (fun u => u.id == idq || u.walletAddress == some idq || u.email == some idq)

/-- saveUser of UserService.ts.  The JS defaulting operators on the input
fields are modeled on the optional fields; the spread merge of an existing
row with updatedUser overrides every field of the row, so the merged row
is updatedUser itself (lastLogin is stamped with the current time, passed
here as the explicit argument now).  Returns the new store and the row. -/
def saveUser (users : List User) (userData : User) (now : String) : List User × User :=
  let updatedUser : User :=
    { id := userData.id
      walletAddress := some (userData.walletAddress.getD "")
      email := some (userData.email.getD "")
      walletType := some (userData.walletType.getD "other")
      treasures := userData.treasures
      score := userData.score
      lastLogin := now }
  match users.findIdx? (fun u => u.id == userData.id) with
  | some i => (users.set i updatedUser, updatedUser)
  | none => (users ++ [updatedUser], updatedUser)

/-- addTreasureToUser of UserService.ts: look up the user, skip when the
treasure position key is already in the user's collection, otherwise push
the treasure, add the rarity value to the score and save. -/
def addTreasureToUser (users : List User) (userId : String) (t : Treasure) (now : String) :
    List User × Option User :=
  match getUserById users userId with
  | none => (users, none)
  | some user =>
    let key := treasureKey t.x t.y
    let hasTreasure := user.treasures.any (fun u => treasureKey u.x u.y == key)
    if hasTreasure then (users, some user)
    else
      let treasureValue := userServiceTreasureValue (t.rarity.getD "Common")
      let user2 : User :=
        { user with treasures := user.treasures ++ [t], score := user.score + treasureValue }
      let res := saveUser users user2 now
      (res.1, some res.2)

/-- handleMove of App.tsx: add the delta and clamp both axes into
[0, GRID_SIZE - 1]. -/
def handleMove (p : Player) (dx dy : Int) : Player :=
  { p with
    x := max 0 (min (GRID_SIZE - 1) (p.x + dx))
    y := max 0 (min (GRID_SIZE - 1) (p.y + dy)) }

/-- In-memory session plus the persisted store: the App.tsx state cells
score, collectedTreasures, openedTreasures, the player, the connected
address and the UserService rows behind localStorage. -/
structure AppState where
  player : Player
  address : String
  score : Int
  collectedTreasures : List Treasure
  openedTreasures : List String
  users : List User
deriving DecidableEq

/-- onOpenTreasure callback of App.tsx: mark the treasure position key
opened.  Re-adding a present key leaves the JS key set unchanged. -/
def onOpenTreasure (s : AppState) (t : Treasure) : AppState :=
  { s with openedTreasures := insertKey s.openedTreasures (treasureKey t.x t.y) }

/-- onCollectTreasure callback of App.tsx: guarded by the openedTreasures
key set; when the key is absent, add the rarity value to the score, append
the treasure to the collected list, mark the key opened, and persist
through addTreasureToUser when the address string is truthy. -/
def onCollectTreasure (s : AppState) (t : Treasure) (now : String) : AppState :=
  let key := treasureKey t.x t.y
  if key ∈ s.openedTreasures then s
  else
    let treasureValue := calculateTreasureValue (t.rarity.getD "Common")
    let users2 := if s.address ≠ "" then (addTreasureToUser s.users s.address t now).1 else s.users
    { s with
      score := s.score + treasureValue
      collectedTreasures := s.collectedTreasures ++ [t]
      openedTreasures := insertKey s.openedTreasures key
      users := users2 }

/-- n successive invocations of the collect transition on one treasure. -/
def collectN (s : AppState) (t : Treasure) (now : String) : Nat → AppState
  | 0 => s
  | n + 1 => onCollectTreasure (collectN s t now n) t now

/-- n successive moves with delta (-1, 0). -/
def moveLeftN (p : Player) : Nat → Player
  | 0 => p
  | n + 1 => handleMove (moveLeftN p n) (-1) 0

/-- Visible tile count per zoom level in GameCanvas.tsx (the let chain
initialized at 500 and narrowed per zoom value). -/
def visibleTilesOf (zoom : Int) : Int :=
  if zoom = 100 then 500
  else if zoom = 50 then 250
  else if zoom = 20 then 100
  else if zoom = 10 then 50
  else if zoom = 2 then 10
  else 500

/-- Tile pixel size per zoom level in GameCanvas.tsx: the base size scaled
by 500 over the visible tile count, overridden to five times the base at
the tightest zoom.  The division is exact for every reachable count. -/
def tileSizeOf (zoom : Int) : Int :=
  if zoom = 2 then BASE_TILE_SIZE * 5
  else BASE_TILE_SIZE * (500 / visibleTilesOf zoom)

/-- Viewport rectangle produced by the render effect of GameCanvas.tsx. -/
structure Viewport where
  startX : Int
  startY : Int
  endX : Int
  endY : Int
  tileSize : Int
deriving DecidableEq

/-- Viewport computation of the render effect of GameCanvas.tsx. -/
def computeViewport (p : Player) (zoom : Int) : Viewport :=
  let visibleTiles := visibleTilesOf zoom
  let tileSize := tileSizeOf zoom
  let half := visibleTiles / 2
  let startX := max 0 (p.x - half)
  let startY := max 0 (p.y - half)
  let endX := min GRID_SIZE (startX + visibleTiles)
  let endY := min GRID_SIZE (startY + visibleTiles)
  { startX := startX, startY := startY, endX := endX, endY := endY, tileSize := tileSize }

/-- Clicked-treasure resolution of handleCanvasClick (open/collect
variant of GameCanvas.tsx): pixel to tile index by division by the tile
size, then the first treasure in the visible area whose viewport-local
position matches the clicked tile. -/
def clickedTreasureOf (p : Player) (treasures : List Treasure) (zoom : Int) (px py : Nat) :
    Option Treasure :=
  let visibleTiles := visibleTilesOf zoom
  let tileSize := tileSizeOf zoom
  let clickedX := (px : Int) / tileSize
  let clickedY := (py : Int) / tileSize
  let half := visibleTiles / 2
  let startX := max 0 (p.x - half)
  let startY := max 0 (p.y - half)
  treasures.find? (fun t =>
    decide (startX ≤ t.x) && decide (t.x < startX + visibleTiles) &&
    decide (startY ≤ t.y) && decide (t.y < startY + visibleTiles) &&
    (clickedX == t.x - startX) && (clickedY == t.y - startY))

/-- handleCanvasClick of the open/collect variant of GameCanvas.tsx: on a
clicked treasure, collect when the player stands on its tile, otherwise
open it when zoom is at most 10 and the key is not already opened; in all
other cases the session state is unchanged (the modal selection is pure
presentation and is not part of the session state). -/
def handleCanvasClick (s : AppState) (treasures : List Treasure) (zoom : Int) (px py : Nat)
    (now : String) : AppState :=
  match clickedTreasureOf s.player treasures zoom px py with
  | none => s
  | some t =>
    if t.x = s.player.x ∧ t.y = s.player.y then
      onCollectTreasure s t now
    else if zoom ≤ 10 ∧ treasureKey t.x t.y ∉ s.openedTreasures then
      onOpenTreasure s t
    else s

/-- World x coordinate of the clicked tile in the movement variant of
handleCanvasClick: the viewport start plus the pixel column divided by the
tile size. -/
def clickTargetX (p : Player) (zoom : Int) (px : Nat) : Int :=
  max 0 (p.x - visibleTilesOf zoom / 2) + (px : Int) / tileSizeOf zoom

/-- World y coordinate of the clicked tile in the movement variant of
handleCanvasClick. -/
def clickTargetY (p : Player) (zoom : Int) (py : Nat) : Int :=
  max 0 (p.y - visibleTilesOf zoom / 2) + (py : Int) / tileSizeOf zoom

/-- handleCanvasClick of the movement variant of GameCanvas.tsx: resolve
the clicked tile to world coordinates and move one single-axis step toward
it, horizontal first, using the sign of the difference. -/
def handleCanvasClickMove (p : Player) (zoom : Int) (px py : Nat) : Player :=
  let dx := Int.sign (clickTargetX p zoom px - p.x)
  let dy := Int.sign (clickTargetY p zoom py - p.y)
  if dx ≠ 0 then handleMove p dx 0
  else if dy ≠ 0 then handleMove p 0 dy
  else p

/-- PRIMARY_COLORS palette of the Persian-carpet variant of
GameCanvas.tsx. -/
def PRIMARY_COLORS : List String :=
  ["#FF1493", "#9400D3", "#00BFFF", "#FF4500", "#32CD32", "#8A2BE2"]

/-- PATTERN_COLORS palette of the Persian-carpet variant. -/
def PATTERN_COLORS : List String :=
  ["#FFFF00", "#00FFFF", "#FF00FF", "#7FFF00", "#FF1493", "#00FA9A"]

/-- PATTERN_TYPES list of the Persian-carpet variant. -/
def PATTERN_TYPES : List String :=
  ["diamond", "floral", "geometric", "medallion", "border", "allover"]

/-- JS ToInt32: wrap a nonnegative integer into the signed 32-bit range. -/
def toInt32 (n : Nat) : Int :=
  let v := n % 4294967296
  if v < 2147483648 then (v : Int) else (v : Int) - 4294967296

/-- The seed expression of both getTileColor variants: the 32-bit signed
xor of a times 73856093 and b times 19349663, as JS evaluates it on
nonnegative grid coordinates. -/
def jsSeed (a b : Nat) : Int :=
  toInt32 (Nat.xor (a * 73856093 % 4294967296) (b * 19349663 % 4294967296))

/-- getTileColor of the Persian-carpet variant of GameCanvas.tsx.  The
time argument is declared by the source and never used by it. -/
def getTileColor (x y : Nat) (time : Int) (zoom : Int) : String :=
  let seed := jsSeed x y
  let regionSize : Nat := 10
  let regionX := x / regionSize
  let regionY := y / regionSize
  let regionSeed := jsSeed regionX regionY
  let patternType := PATTERN_TYPES.getD (regionSeed.natAbs % PATTERN_TYPES.length) ""
  if zoom ≤ 10 then
    let isBorder := x % regionSize = 0 ∨ y % regionSize = 0 ∨
      x % regionSize = regionSize - 1 ∨ y % regionSize = regionSize - 1
    let isCenter := x % regionSize = regionSize / 2 ∧ y % regionSize = regionSize / 2
    let isAlternating := (x + y) % 2 = 0
    let isQuadrant := ((x % 3) + (y % 3)) % 3 = 0
    if patternType = "border" ∧ isBorder then
      PATTERN_COLORS.getD (seed.natAbs % PATTERN_COLORS.length) ""
    else if patternType = "medallion" ∧ (isCenter ∨
        (((x % regionSize : Nat) : Int) - ((regionSize : Int) / 2)).natAbs +
        (((y % regionSize : Nat) : Int) - ((regionSize : Int) / 2)).natAbs ≤ 2) then
      PATTERN_COLORS.getD (seed.natAbs % PATTERN_COLORS.length) ""
    else if patternType = "diamond" ∧ isAlternating then
      PATTERN_COLORS.getD (seed.natAbs % PATTERN_COLORS.length) ""
    else if patternType = "geometric" ∧ isQuadrant then
      PATTERN_COLORS.getD (seed.natAbs % PATTERN_COLORS.length) ""
    else if patternType = "floral" ∧ (x * y) % 5 = 0 then
      PATTERN_COLORS.getD (seed.natAbs % PATTERN_COLORS.length) ""
    else
      PRIMARY_COLORS.getD (seed.natAbs % PRIMARY_COLORS.length) ""
  else
    PRIMARY_COLORS.getD (seed.natAbs % PRIMARY_COLORS.length) ""

/-- VARIATION_COLORS table of the biome variant of GameCanvas.tsx. -/
def VARIATION_COLORS (biome : String) : List String :=
  if biome = "forest" then ["#1B5E20", "#2E7D32", "#388E3C", "#43A047", "#4CAF50"]
  else if biome = "desert" then ["#FBC02D", "#F9A825", "#F57F17", "#FFB300", "#FFCA28"]
  else if biome = "mountain" then ["#795548", "#6D4C41", "#5D4037", "#8D6E63", "#A1887F"]
  else if biome = "water" then ["#1976D2", "#1565C0", "#0D47A1", "#2196F3", "#42A5F5"]
  else if biome = "plains" then ["#8BC34A", "#7CB342", "#689F38", "#9CCC65", "#AED581"]
  else if biome = "beach" then ["#FFD54F", "#FFCA28", "#FFC107", "#FFE082", "#FFECB3"]
  else if biome = "grassland" then ["#7CB342", "#689F38", "#558B2F", "#8BC34A", "#9CCC65"]
  else if biome = "swamp" then ["#4E342E", "#5D4037", "#6D4C41", "#3E2723", "#4E342E"]
  else []

/-- getTileColor of the biome variant of GameCanvas.tsx: sine and cosine
noise over the coordinates picks the biome region, the 32-bit seed picks
the shade.  Every branch computes the same shade index, abstracted here
once as variation.  The time argument is declared and never used. -/
def getTileColorBiome (x y : Nat) (time : Int) (zoom : Int) : String :=
  let seed := jsSeed x y
  let xf : Float := Float.ofNat x
  let yf : Float := Float.ofNat y
  let noise1 := Float.sin (xf * 0.05) * Float.cos (yf * 0.05)
  let noise2 := Float.sin (xf * 0.02 + yf * 0.03) * Float.cos (yf * 0.01 - xf * 0.04)
  let noise3 := Float.sin (xf * 0.01 - yf * 0.02) * Float.cos (yf * 0.03 + xf * 0.01)
  let combinedNoise := (noise1 + noise2 + noise3) / 3
  let variation := (seed.tmod 5).natAbs
  let gsf : Float := 500
  if combinedNoise < -0.4 then (VARIATION_COLORS "water").getD variation ""
  else if combinedNoise > 0.5 then (VARIATION_COLORS "mountain").getD variation ""
  else if xf > gsf * 0.6 ∧ yf < gsf * 0.4 ∧ combinedNoise > -0.2 then
    (VARIATION_COLORS "desert").getD variation ""
  else if xf < gsf * 0.4 ∧ yf < gsf * 0.4 ∧ combinedNoise > -0.2 then
    (VARIATION_COLORS "forest").getD variation ""
  else if xf < gsf * 0.3 ∧ yf > gsf * 0.7 ∧ combinedNoise > -0.3 ∧ combinedNoise < 0.2 then
    (VARIATION_COLORS "swamp").getD variation ""
  else if combinedNoise ≥ -0.4 ∧ combinedNoise < -0.25 then
    (VARIATION_COLORS "beach").getD variation ""
  else if combinedNoise ≥ -0.25 ∧ combinedNoise < 0.1 then
    (VARIATION_COLORS "plains").getD variation ""
  else (VARIATION_COLORS "grassland").getD variation ""

/-- Session-level input events: keyboard moves, open and collect
callbacks, the open/collect click handler, and the movement click
handler. -/
inductive GameEvent where
  | move (dx dy : Int)
  | openTreasure (t : Treasure)
  | collectTreasure (t : Treasure) (now : String)
  | canvasClick (treasures : List Treasure) (zoom : Int) (px py : Nat) (now : String)
  | canvasClickMove (zoom : Int) (px py : Nat)

/-- One event step on the session state. -/
def stepEvent (s : AppState) : GameEvent → AppState
  | .move dx dy => { s with player := handleMove s.player dx dy }
  | .openTreasure t => onOpenTreasure s t
  | .collectTreasure t now => onCollectTreasure s t now
  | .canvasClick ts zoom px py now => handleCanvasClick s ts zoom px py now
  | .canvasClickMove zoom px py => { s with player := handleCanvasClickMove s.player zoom px py }

/-- Run a sequence of events. -/
def runEvents (s : AppState) (es : List GameEvent) : AppState := es.foldl stepEvent s

/-- Lifecycle states of a treasure for one player. -/
inductive TreasureState where
  | undiscovered
  | opened
  | collected
deriving DecidableEq

/-- Rank of a lifecycle state in the order undiscovered, opened,
collected. -/
def TreasureState.rank : TreasureState → Nat
  | .undiscovered => 0
  | .opened => 1
  | .collected => 2

/-- Lifecycle state of a treasure as the session tracks it: collected
when it is in the collected list, opened when its key is in the opened
key set, undiscovered otherwise. -/
def treasureStateOf (s : AppState) (t : Treasure) : TreasureState :=
  if t ∈ s.collectedTreasures then .collected
  else if treasureKey t.x t.y ∈ s.openedTreasures then .opened
  else .undiscovered

/-- Treasure used by the C1 idempotence witness. -/
def c1Treasure : Treasure := { x := 3, y := 4, emoji := "coin", rarity := some "Legendary" }

/-- Stored user row used by the C1 idempotence witness. -/
def c1User : User :=
  { id := "0xc1", walletAddress := some "0xc1", email := none, walletType := some "metamask",
    treasures := [], score := 0, lastLogin := "t0" }

/-- Session used by the C1 idempotence witness. -/
def c1State : AppState :=
  { player := { x := 3, y := 4, address := "0xc1" }, address := "0xc1", score := 0,
    collectedTreasures := [], openedTreasures := [], users := [c1User] }

/-- Treasure used by the C2 counterexample and witness. -/
def c2Treasure : Treasure := { x := 7, y := 5, emoji := "gem", rarity := some "Uncommon" }

/-- Session with the treasure at the player tile already in the Opened
state, used by the C2 counterexample. -/
def c2State : AppState :=
  { player := { x := 7, y := 5, address := "0xc2" }, address := "0xc2", score := 0,
    collectedTreasures := [], openedTreasures := [treasureKey 7 5], users := [] }

/-- Session with the same treasure not yet opened, used by the C2
witness. -/
def c2FreshState : AppState :=
  { player := { x := 7, y := 5, address := "0xc2" }, address := "0xc2", score := 0,
    collectedTreasures := [], openedTreasures := [], users := [] }

/-- Player at the far grid corner, used by the C6 counterexample. -/
def c6Player : Player := { x := 499, y := 499, address := "0xedge" }

/-- Treasure two tiles right of the player, used by the C9 counterexample
and witness. -/
def c9Treasure : Treasure := { x := 252, y := 250, emoji := "gem", rarity := some "Uncommon" }

/-- Session with the player at the grid center, used by the C9
counterexample and witness. -/
def c9State : AppState :=
  { player := { x := 250, y := 250, address := "0xc9" }, address := "0xc9", score := 0,
    collectedTreasures := [], openedTreasures := [], users := [] }

/-- Stored user with distinct id, wallet address and email, used by the
C10 theorem and witness. -/
def c10User : User :=
  { id := "0xabc", walletAddress := some "0xdef", email := some "u@example.com",
    walletType := some "metamask", treasures := [], score := 0, lastLogin := "t0" }

/-- Stored filler user matching none of the C10 queries. -/
def c10Other : User :=
  { id := "zzz", walletAddress := none, email := none, walletType := some "other",
    treasures := [], score := 5, lastLogin := "t1" }

/-! Helper lemmas shared by the claim theorems. -/

/-- Inserting a key preserves the keys already present. -/
theorem mem_insertKey_of_mem {l : List String} {k a : String} (h : a ∈ l) : a ∈ insertKey l k := by
  unfold insertKey
  split
  · exact h
  · exact List.mem_append_left _ h

/-- The inserted key is present after insertion. -/
theorem self_mem_insertKey (l : List String) (k : String) : k ∈ insertKey l k := by
  unfold insertKey
  split
  · assumption
  · simp

/-- The collect transition on a treasure whose key is already opened is
the identity on the whole state. -/
theorem onCollectTreasure_opened_noop (s : AppState) (t : Treasure) (now : String)
    (h : treasureKey t.x t.y ∈ s.openedTreasures) : onCollectTreasure s t now = s := by
  simp [onCollectTreasure, h]

/-- After any collect invocation the treasure key is opened. -/
theorem key_mem_onCollect (s : AppState) (t : Treasure) (now : String) :
    treasureKey t.x t.y ∈ (onCollectTreasure s t now).openedTreasures := by
  by_cases h : treasureKey t.x t.y ∈ s.openedTreasures
  · simp [onCollectTreasure, h]
  · simp only [onCollectTreasure, if_neg h]
    exact self_mem_insertKey _ _

/-- The collect transition only grows the opened key set. -/
theorem opened_subset_onCollect (s : AppState) (t : Treasure) (now : String) :
    s.openedTreasures ⊆ (onCollectTreasure s t now).openedTreasures := by
  intro a ha
  simp only [onCollectTreasure]
  split
  · exact ha
  · exact mem_insertKey_of_mem ha

/-- The collect transition only grows the collected list. -/
theorem collected_subset_onCollect (s : AppState) (t : Treasure) (now : String) :
    s.collectedTreasures ⊆ (onCollectTreasure s t now).collectedTreasures := by
  intro a ha
  simp only [onCollectTreasure]
  split
  · exact ha
  · exact List.mem_append_left _ ha

/-- The open transition only grows the opened key set and leaves the
collected list unchanged. -/
theorem onOpenTreasure_mono (s : AppState) (t : Treasure) :
    s.openedTreasures ⊆ (onOpenTreasure s t).openedTreasures ∧
    (onOpenTreasure s t).collectedTreasures = s.collectedTreasures :=
  ⟨fun _ ha => mem_insertKey_of_mem ha, rfl⟩

/-- The open/collect click handler only grows both treasure-state sets. -/
theorem click_mono (s : AppState) (ts : List Treasure) (zoom : Int) (px py : Nat)
    (now : String) :
    s.openedTreasures ⊆ (handleCanvasClick s ts zoom px py now).openedTreasures ∧
    s.collectedTreasures ⊆ (handleCanvasClick s ts zoom px py now).collectedTreasures := by
  unfold handleCanvasClick
  cases clickedTreasureOf s.player ts zoom px py with
  | none => exact ⟨fun _ h => h, fun _ h => h⟩
  | some t =>
    constructor
    · simp only
      split
      · exact opened_subset_onCollect s t now
      · split
        · exact (onOpenTreasure_mono s t).1
        · exact fun _ h => h
    · simp only
      split
      · exact collected_subset_onCollect s t now
      · split
        · exact fun a ha => ((onOpenTreasure_mono s t).2).symm ▸ ha
        · exact fun _ h => h

/-- Every event step only grows both treasure-state sets. -/
theorem stepEvent_mono (s : AppState) (e : GameEvent) :
    s.openedTreasures ⊆ (stepEvent s e).openedTreasures ∧
    s.collectedTreasures ⊆ (stepEvent s e).collectedTreasures := by
  cases e with
  | move dx dy => exact ⟨fun _ h => h, fun _ h => h⟩
  | openTreasure t => exact ⟨(onOpenTreasure_mono s t).1,
      fun a ha => ((onOpenTreasure_mono s t).2).symm ▸ ha⟩
  | collectTreasure t now => exact ⟨opened_subset_onCollect s t now,
      collected_subset_onCollect s t now⟩
  | canvasClick ts zoom px py now => exact click_mono s ts zoom px py now
  | canvasClickMove zoom px py => exact ⟨fun _ h => h, fun _ h => h⟩

/-- Running any event sequence only grows both treasure-state sets. -/
theorem runEvents_mono (s : AppState) (es : List GameEvent) :
    s.openedTreasures ⊆ (runEvents s es).openedTreasures ∧
    s.collectedTreasures ⊆ (runEvents s es).collectedTreasures := by
  induction es generalizing s with
  | nil => exact ⟨fun _ h => h, fun _ h => h⟩
  | cons e es ih =>
    have h1 := stepEvent_mono s e
    have h2 := ih (stepEvent s e)
    exact ⟨h1.1.trans h2.1, h1.2.trans h2.2⟩

/-- When both treasure-state sets grow, the lifecycle rank of every
treasure can only increase. -/
theorem rank_mono_of_grow {s s2 : AppState} (t : Treasure)
    (ho : s.openedTreasures ⊆ s2.openedTreasures)
    (hc : s.collectedTreasures ⊆ s2.collectedTreasures) :
    (treasureStateOf s t).rank ≤ (treasureStateOf s2 t).rank := by
  by_cases h1 : t ∈ s.collectedTreasures
  · simp [treasureStateOf, h1, hc h1]
  · by_cases h2 : treasureKey t.x t.y ∈ s.openedTreasures
    · by_cases h3 : t ∈ s2.collectedTreasures
      · simp [treasureStateOf, h1, h2, h3, TreasureState.rank]
      · simp [treasureStateOf, h1, h2, h3, ho h2, TreasureState.rank]
    · by_cases h3 : t ∈ s2.collectedTreasures
      · simp [treasureStateOf, h1, h2, h3, TreasureState.rank]
      · by_cases h4 : treasureKey t.x t.y ∈ s2.openedTreasures
        · simp [treasureStateOf, h1, h2, h3, h4, TreasureState.rank]
        · simp [treasureStateOf, h1, h2, h3, h4, TreasureState.rank]

/-- The sign of an integer has absolute value at most one. -/
theorem sign_natAbs_le_one (z : Int) : (Int.sign z).natAbs ≤ 1 := by
  rcases z with n | n
  · cases n <;> simp [Int.sign]
  · simp [Int.sign]

/-- A clamped one-axis move displaces by at most the delta when starting
inside the grid. -/
theorem clamp_move_le (x d : Int) (h1 : 0 ≤ x) (h2 : x ≤ 499) :
    (max 0 (min 499 (x + d)) - x).natAbs ≤ d.natAbs := by omega

/-- A user row matches a query exactly when one of its identity fields
equals it. -/
theorem userMatches_iff (u : User) (q : String) :
    (u.id == q || u.walletAddress == some q || u.email == some q) = true ↔
      (u.id = q ∨ u.walletAddress = some q ∨ u.email = some q) := by
  simp [or_assoc]

/-! Claim theorems. -/

/-- C1: a second collect invocation on a treasure already collected is a
no-op on the whole state — session score, collected list, opened keys and
the persisted user rows equal those after the first invocation — and over
any positive number of invocations the state equals the state after the
first one, whose score grew by the treasure's rarity value exactly once
and whose collected list gained the treasure exactly once. -/
theorem collect_idempotent_scores_once (s : AppState) (t : Treasure) (now now2 : String)
    (h : treasureKey t.x t.y ∉ s.openedTreasures) :
    onCollectTreasure (onCollectTreasure s t now) t now2 = onCollectTreasure s t now ∧
    (onCollectTreasure s t now).score =
      s.score + calculateTreasureValue (t.rarity.getD "Common") ∧
    (onCollectTreasure s t now).collectedTreasures = s.collectedTreasures ++ [t] ∧
    ∀ n : Nat, 1 ≤ n → collectN s t now n = onCollectTreasure s t now := by
  refine ⟨onCollectTreasure_opened_noop _ _ _ (key_mem_onCollect s t now), ?_, ?_, ?_⟩
  · simp [onCollectTreasure, h]
  · simp [onCollectTreasure, h]
  · intro n hn
    induction n with
    | zero => exact absurd hn (by omega)
    | succ m ih =>
      rcases Nat.eq_zero_or_pos m with h0 | hm
      · subst h0; rfl
      · show onCollectTreasure (collectN s t now m) t now = onCollectTreasure s t now
        rw [ih hm]
        exact onCollectTreasure_opened_noop _ _ _ (key_mem_onCollect s t now)

/-- C1 witness: at a concrete fresh session the second collect invocation
returns exactly the state after the first. -/
theorem collect_idempotent_scores_once_witness :
    onCollectTreasure (onCollectTreasure c1State c1Treasure "t1") c1Treasure "t2" =
      onCollectTreasure c1State c1Treasure "t1" :=
  (collect_idempotent_scores_once c1State c1Treasure "t1" "t2" (by decide)).1

/-- C2 counterexample: a treasure at the player's tile already in the
Opened state (its key opened, not collected) is NOT collected by the
collect transition — the collected list stays empty, the score stays 0
and the whole state is unchanged, refuting the claim that being Opened
does not gate the Collected transition. -/
theorem opened_treasure_not_collected_cex :
    (onCollectTreasure c2State c2Treasure "now").collectedTreasures = [] ∧
    (onCollectTreasure c2State c2Treasure "now").score = 0 ∧
    onCollectTreasure c2State c2Treasure "now" = c2State := by decide

/-- C2 amended: collection is gated by the opened-key set — occupancy of a
treasure whose key is opened is a no-op, and occupancy collects (appends
the treasure and adds its rarity value to the score) exactly when the key
is not yet opened. -/
theorem collect_gated_by_opened_key (s : AppState) (t : Treasure) (now : String) :
    (treasureKey t.x t.y ∈ s.openedTreasures → onCollectTreasure s t now = s) ∧
    (treasureKey t.x t.y ∉ s.openedTreasures →
      (onCollectTreasure s t now).collectedTreasures = s.collectedTreasures ++ [t] ∧
      (onCollectTreasure s t now).score =
        s.score + calculateTreasureValue (t.rarity.getD "Common")) := by
  constructor
  · exact fun h => onCollectTreasure_opened_noop s t now h
  · intro h
    constructor <;> simp [onCollectTreasure, h]

/-- C2 amended witness: on a concrete session whose treasure key is not
yet opened, the collect transition appends the treasure and adds its
value. -/
theorem collect_gated_by_opened_key_witness :
    (onCollectTreasure c2FreshState c2Treasure "now").collectedTreasures =
      c2FreshState.collectedTreasures ++ [c2Treasure] ∧
    (onCollectTreasure c2FreshState c2Treasure "now").score =
      c2FreshState.score + calculateTreasureValue (c2Treasure.rarity.getD "Common") :=
  (collect_gated_by_opened_key c2FreshState c2Treasure "now").2 (by decide)

/-- C3: over any sequence of move, click, open and collect events the
opened-key set and the collected list only grow, and the lifecycle state
of every treasure never regresses in the order undiscovered, opened,
collected. -/
theorem treasure_state_never_regresses (s : AppState) (es : List GameEvent) (t : Treasure) :
    s.openedTreasures ⊆ (runEvents s es).openedTreasures ∧
    s.collectedTreasures ⊆ (runEvents s es).collectedTreasures ∧
    (treasureStateOf s t).rank ≤ (treasureStateOf (runEvents s es) t).rank := by
  obtain ⟨h1, h2⟩ := runEvents_mono s es
  exact ⟨h1, h2, rank_mono_of_grow t h1 h2⟩

/-- C4: the rarity-to-value lookup is total — it returns 10, 50, 200, 500
and 1000 on the five known tiers, 10 on every other string, the
UserService copy of the table agrees with it everywhere, and a missing
rarity defaults to Common and hence to 10. -/
theorem rarity_value_table_total (r : String)
    (hr : r ∉ ["Common", "Uncommon", "Rare", "Epic", "Legendary"]) :
    calculateTreasureValue "Common" = 10 ∧ calculateTreasureValue "Uncommon" = 50 ∧
    calculateTreasureValue "Rare" = 200 ∧ calculateTreasureValue "Epic" = 500 ∧
    calculateTreasureValue "Legendary" = 1000 ∧ calculateTreasureValue r = 10 ∧
    (∀ q : String, userServiceTreasureValue q = calculateTreasureValue q) ∧
    calculateTreasureValue ((none : Option String).getD "Common") = 10 := by
  simp only [List.mem_cons, List.not_mem_nil, or_false, not_or] at hr
  obtain ⟨h1, h2, h3, h4, h5⟩ := hr
  refine ⟨by decide, by decide, by decide, by decide, by decide, ?_, fun q => rfl, by decide⟩
  simp [calculateTreasureValue, h1, h2, h3, h4, h5]

/-- C4 witness: an unknown rarity string falls back to 10. -/
theorem rarity_value_table_total_witness : calculateTreasureValue "Mythic" = 10 :=
  (rarity_value_table_total "Mythic" (by decide)).2.2.2.2.2.1

/-- C5: for the five zoom levels and any player position inside the grid,
the computed viewport is inside the grid on both axes and its width and
height are at most the visible tile count of the zoom level. -/
theorem computeViewport_bounds (p : Player) (zoom : Int) (hz : zoom ∈ ZOOM_LEVELS)
    (hx0 : 0 ≤ p.x) (hx1 : p.x ≤ 499) (hy0 : 0 ≤ p.y) (hy1 : p.y ≤ 499) :
    0 ≤ (computeViewport p zoom).startX ∧
    (computeViewport p zoom).startX ≤ (computeViewport p zoom).endX ∧
    (computeViewport p zoom).endX ≤ GRID_SIZE ∧
    (computeViewport p zoom).endX - (computeViewport p zoom).startX ≤ visibleTilesOf zoom ∧
    0 ≤ (computeViewport p zoom).startY ∧
    (computeViewport p zoom).startY ≤ (computeViewport p zoom).endY ∧
    (computeViewport p zoom).endY ≤ GRID_SIZE ∧
    (computeViewport p zoom).endY - (computeViewport p zoom).startY ≤ visibleTilesOf zoom := by
  have hz2 : zoom = 100 ∨ zoom = 50 ∨ zoom = 20 ∨ zoom = 10 ∨ zoom = 2 := by
    simpa [ZOOM_LEVELS] using hz
  rcases hz2 with rfl | rfl | rfl | rfl | rfl <;>
    simp [computeViewport, visibleTilesOf, GRID_SIZE] <;> omega

/-- C5 witness: the bounds hold at the grid center at the widest zoom. -/
theorem computeViewport_bounds_witness :
    0 ≤ (computeViewport { x := 250, y := 250, address := "w" } 100).startX :=
  (computeViewport_bounds { x := 250, y := 250, address := "w" } 100 (by decide)
    (by decide) (by decide) (by decide) (by decide)).1

/-- C6 counterexample: at zoom 2 (visible tile count 10, at most the grid
size) a player at the far corner gets a viewport of width 6, not 10 — the
window DOES shrink near the high grid boundary, refuting the claim that
the window never shrinks. -/
theorem viewport_shrinks_at_high_edge_cex :
    (computeViewport c6Player 2).endX - (computeViewport c6Player 2).startX ≠
      visibleTilesOf 2 ∧
    (computeViewport c6Player 2).endX - (computeViewport c6Player 2).startX = 6 := by decide

/-- C6 amended: the viewport width is min(visible, GRID_SIZE - start) on
each axis — near the low boundary start clamps to 0 and the window keeps
full size with the player off-center, and the width equals the visible
tile count exactly when start + visible does not pass the high boundary;
otherwise the window shrinks. -/
theorem viewport_width_min_formula (p : Player) (zoom : Int) :
    (computeViewport p zoom).endX - (computeViewport p zoom).startX =
      min (visibleTilesOf zoom) (GRID_SIZE - (computeViewport p zoom).startX) ∧
    ((computeViewport p zoom).startX + visibleTilesOf zoom ≤ GRID_SIZE →
      (computeViewport p zoom).endX - (computeViewport p zoom).startX = visibleTilesOf zoom) ∧
    (computeViewport p zoom).endY - (computeViewport p zoom).startY =
      min (visibleTilesOf zoom) (GRID_SIZE - (computeViewport p zoom).startY) ∧
    ((computeViewport p zoom).startY + visibleTilesOf zoom ≤ GRID_SIZE →
      (computeViewport p zoom).endY - (computeViewport p zoom).startY = visibleTilesOf zoom) := by
  simp only [computeViewport]
  exact ⟨by omega, by omega, by omega, by omega⟩

/-- C6 amended witness: away from the high boundary the width equals the
visible tile count. -/
theorem viewport_width_min_formula_witness :
    (computeViewport { x := 0, y := 0, address := "w" } 2).endX -
      (computeViewport { x := 0, y := 0, address := "w" } 2).startX = visibleTilesOf 2 :=
  (viewport_width_min_formula { x := 0, y := 0, address := "w" } 2).2.1 (by decide)

/-- C7: a move with any delta yields exactly the componentwise clamp of
the translated position into [0, 499] with the address unchanged, and
starting at the origin any number of moves with delta (-1, 0) stays at
the origin. -/
theorem handleMove_clamp (p : Player) (dx dy : Int) :
    (handleMove p dx dy).x = max 0 (min 499 (p.x + dx)) ∧
    (handleMove p dx dy).y = max 0 (min 499 (p.y + dy)) ∧
    (handleMove p dx dy).address = p.address ∧
    ∀ (addr : String) (n : Nat),
      moveLeftN { x := 0, y := 0, address := addr } n = { x := 0, y := 0, address := addr } := by
  refine ⟨rfl, rfl, rfl, ?_⟩
  intro addr n
  induction n with
  | zero => rfl
  | succ m ih =>
    show handleMove (moveLeftN { x := 0, y := 0, address := addr } m) (-1) 0 = _
    rw [ih]
    rfl

/-- C8: the terrain color of both getTileColor variants does not depend on
the animation clock at all — for any two clock values the full color, and
hence the biome or pattern family, is identical. -/
theorem tileColor_time_invariant (x y : Nat) (t1 t2 zoom : Int) :
    getTileColor x y t1 zoom = getTileColor x y t2 zoom ∧
    getTileColorBiome x y t1 zoom = getTileColorBiome x y t2 zoom := ⟨rfl, rfl⟩

/-- C9 counterexample: a click whose pixel maps to the tile of an Uncommon
treasure two tiles from the player, at zoom 100, leaves the session
completely unchanged in the open/collect click handler — no Opened
transition happens, refuting the claim that such a click always opens the
treasure. -/
theorem click_far_treasure_no_open_cex :
    handleCanvasClick c9State [c9Treasure] 100 6048 6000 "now" = c9State ∧
    (handleCanvasClick c9State [c9Treasure] 100 6048 6000 "now").openedTreasures = [] := by
  decide

/-- C9 amended: in the open/collect click variant, when the click resolves
to a treasure away from the player's tile, the zoom is at most 10 and the
key is not yet opened, the click only marks the treasure opened — score,
collected list, player and store unchanged; and in the movement click
variant a click moves a player inside the grid by at most one tile along
a single axis. -/
theorem click_opens_only_and_single_step (s : AppState) (ts : List Treasure) (zoom : Int)
    (px py : Nat) (now : String) (t : Treasure)
    (hfind : clickedTreasureOf s.player ts zoom px py = some t)
    (hne : ¬(t.x = s.player.x ∧ t.y = s.player.y))
    (hz : zoom ≤ 10)
    (hop : treasureKey t.x t.y ∉ s.openedTreasures) :
    handleCanvasClick s ts zoom px py now =
      { s with openedTreasures := s.openedTreasures ++ [treasureKey t.x t.y] } ∧
    ∀ (q : Player) (zoom2 : Int) (px2 py2 : Nat),
      0 ≤ q.x → q.x ≤ 499 → 0 ≤ q.y → q.y ≤ 499 →
      ((handleCanvasClickMove q zoom2 px2 py2).x - q.x).natAbs +
        ((handleCanvasClickMove q zoom2 px2 py2).y - q.y).natAbs ≤ 1 := by
  constructor
  · unfold handleCanvasClick
    rw [hfind]
    simp only [if_neg hne, if_pos (And.intro hz hop)]
    unfold onOpenTreasure insertKey
    rw [if_neg hop]
  · intro q zoom2 px2 py2 h1 h2 h3 h4
    have hA := sign_natAbs_le_one (clickTargetX q zoom2 px2 - q.x)
    have hB := sign_natAbs_le_one (clickTargetY q zoom2 py2 - q.y)
    simp only [handleCanvasClickMove]
    split
    · simp only [handleMove, GRID_SIZE]
      omega
    · split
      · simp only [handleMove, GRID_SIZE]
        omega
      · simp

/-- C9 amended witness: a concrete close-zoom click on the distant
Uncommon treasure opens it and changes nothing else. -/
theorem click_opens_only_and_single_step_witness :
    handleCanvasClick c9State [c9Treasure] 10 6480 6000 "now" =
      { c9State with
        openedTreasures := c9State.openedTreasures ++
          [treasureKey c9Treasure.x c9Treasure.y] } :=
  (click_opens_only_and_single_step c9State [c9Treasure] 10 6480 6000 "now" c9Treasure
    (by decide) (by decide) (by decide) (by decide)).1

/-- C10: getUserById returns a stored user exactly when one of its id,
wallet address or email fields equals the query — the first such user in
store order, none when no row matches — and two distinct identity strings
of one stored user resolve to the same row. -/
theorem getUserById_matches_any_identity :
    (∀ (us : List User) (q : String) (u : User), getUserById us q = some u →
      u ∈ us ∧ (u.id = q ∨ u.walletAddress = some q ∨ u.email = some q)) ∧
    (∀ (us : List User) (q : String), getUserById us q = none ↔
      ∀ u ∈ us, ¬(u.id = q ∨ u.walletAddress = some q ∨ u.email = some q)) ∧
    (∀ (pre post : List User) (q : String) (u : User),
      (∀ v ∈ pre, ¬(v.id = q ∨ v.walletAddress = some q ∨ v.email = some q)) →
      (u.id = q ∨ u.walletAddress = some q ∨ u.email = some q) →
      getUserById (pre ++ u :: post) q = some u) ∧
    getUserById [c10Other, c10User] "0xdef" = some c10User ∧
    getUserById [c10Other, c10User] "u@example.com" = some c10User ∧
    ("0xdef" : String) ≠ "u@example.com" := by
  refine ⟨?_, ?_, ?_, by decide, by decide, by decide⟩
  · intro us q u h
    refine ⟨List.mem_of_find?_eq_some h, ?_⟩
    have hp := List.find?_some h
    exact (userMatches_iff u q).mp hp
  · intro us q
    unfold getUserById
    rw [List.find?_eq_none]
    constructor
    · intro h u hu hm
      exact h u hu ((userMatches_iff u q).mpr hm)
    · intro h u hu hm
      exact h u hu ((userMatches_iff u q).mp hm)
  · intro pre post q u
    induction pre with
    | nil =>
      intro _ hu
      unfold getUserById
      simp only [List.nil_append]
      rw [List.find?_cons_of_pos]
      exact (userMatches_iff u q).mpr hu
    | cons v vs ih =>
      intro hpre hu
      have hv : ¬(v.id = q ∨ v.walletAddress = some q ∨ v.email = some q) :=
        hpre v (List.mem_cons_self v vs)
      have step := ih (fun w hw => hpre w (List.mem_cons_of_mem v hw)) hu
      unfold getUserById at step ⊢
      simp only [List.cons_append]
      rw [List.find?_cons_of_neg]
      · exact step
      · intro hc
        exact hv ((userMatches_iff v q).mp hc)

/-- C10 witness: the first-match property applied to a concrete store — a
non-matching row followed by the target user. -/
theorem getUserById_matches_any_identity_witness :
    getUserById ([c10Other] ++ c10User :: []) "0xdef" = some c10User :=
  getUserById_matches_any_identity.2.2.1 [c10Other] [] "0xdef" c10User
    (by decide) (by decide)

end Perxplor
